import Mathlib

/-
Verification of the TruckedUpFood core logic: the proximity ranker of
`src/app/search/page.tsx` (distance computation, sort comparator, filters)
and the vendor status controller of the GoLiveButton component
(state transitions, location capture and persistence ordering).

Modelling conventions:
- JS numbers carried as data (latitudes, longitudes, distances) are modelled
  as rationals in the ranker, and as real numbers where the trigonometric
  haversine distance is computed.
- Database row ids (uuids in the source) are modelled as naturals.
- `Array.prototype.sort` with a comparator is a stable sort; it is embedded
  as `List.mergeSort` on the boolean relation `comparator a b <= 0`
  (the ECMAScript sort consults only the sign of the comparator, mapping a
  NaN result to zero).
- Asynchronous database writes that can fail are modelled by boolean
  success oracles passed to each operation; a failed write throws in the
  source, which the surrounding catch turns into an error outcome with no
  further writes.
-/

namespace TruckedUpFood

/-- Vendor operational status (`VendorOperationalStatus` in types/vendor.ts):
`'offline' | 'live' | 'closing_soon'`. -/
inductive St
  | offline
  | live
  | closing_soon
deriving DecidableEq

/-- The nested `location` field of `VendorWithLocation` in search/page.tsx:
`{ latitude, longitude, address?, notes? }`. -/
structure VendorLocation (α : Type) where
  latitude : α
  longitude : α
  address : Option String
  notes : Option String
deriving DecidableEq

/-- The `VendorWithLocation` record assembled by `fetchVendors` in
search/page.tsx. -/
structure VendorWithLocation (α : Type) where
  id : String
  business_name : String
  description : String
  cuisine_types : List String
  logo_url : Option String
  operational_status : St
  location : Option (VendorLocation α)
  distance_miles : Option α
deriving DecidableEq

/-- `aIsLive` / `bIsLive` in the sort comparator:
`a.operational_status !== 'offline'`. -/
def vendorIsLive {α : Type} (v : VendorWithLocation α) : Bool :=
  decide ¬(v.operational_status = St.offline)

/-- Sign of `(aDist ?? Infinity) - (bDist ?? Infinity)` as the ECMAScript
sort consumes it: a missing distance reads as `Infinity`, so
`x - Infinity < 0`, `Infinity - x > 0`, and `Infinity - Infinity` is NaN,
which `Array.prototype.sort` treats as zero. -/
def distCmp {α : Type} [LinearOrder α] : Option α → Option α → Int
  | some x, some y => if x < y then -1 else if y < x then 1 else 0
  | some _, none => -1
  | none, some _ => 1
  | none, none => 0

/-- The sort comparator of `fetchVendors` (search/page.tsx lines 122-134):
live/closing vendors first, then by distance with missing distances last. -/
def sortCompare {α : Type} [LinearOrder α] (a b : VendorWithLocation α) : Int :=
  if vendorIsLive a = true ∧ ¬vendorIsLive b = true then -1
  else if ¬vendorIsLive a = true ∧ vendorIsLive b = true then 1
  else distCmp a.distance_miles b.distance_miles

/-- The boolean "sorts no later than" relation induced by the comparator. -/
def rankLe {α : Type} [LinearOrder α] (a b : VendorWithLocation α) : Bool :=
  decide (sortCompare a b ≤ 0)

/-- The ranking step of `fetchVendors`: the stable sort of the candidate
list under the comparator. -/
def rank {α : Type} [LinearOrder α] (l : List (VendorWithLocation α)) :
    List (VendorWithLocation α) :=
  l.mergeSort rankLe

/-- The filter predicate of `filteredVendors` (search/page.tsx lines
183-198): drop offline vendors when `showLiveOnly`, and when some cuisines
are selected drop vendors whose tag list meets none of them. -/
def keepVendor {α : Type} (showLiveOnly : Bool) (selectedCuisines : List String)
    (v : VendorWithLocation α) : Bool :=
  if showLiveOnly = true ∧ v.operational_status = St.offline then false
  else if 0 < selectedCuisines.length ∧
      ¬(v.cuisine_types.any fun t => selectedCuisines.contains t) = true then false
  else true

/-- `filteredVendors` (search/page.tsx): `vendors.filter(...)`. -/
def filteredVendors {α : Type} (showLiveOnly : Bool) (selectedCuisines : List String)
    (vendors : List (VendorWithLocation α)) : List (VendorWithLocation α) :=
  vendors.filter (keepVendor showLiveOnly selectedCuisines)

/-- "No farther than" on optional distances, a missing distance counting as
farthest. -/
def distLe {α : Type} [LinearOrder α] : Option α → Option α → Prop
  | some x, some y => x ≤ y
  | some _, none => True
  | none, some _ => False
  | none, none => True

/-- "Sorts no later" in specification terms: strictly better liveness
bucket, or same bucket and no greater distance, a missing distance counting
as last. -/
def specLe {α : Type} [LinearOrder α] (a b : VendorWithLocation α) : Prop :=
  (vendorIsLive a = true ∧ vendorIsLive b = false) ∨
  (vendorIsLive a = vendorIsLive b ∧ distLe a.distance_miles b.distance_miles)

/-- `toRad` (search/page.tsx line 24): degrees to radians. -/
noncomputable def toRad (degrees : ℝ) : ℝ :=
  degrees * (Real.pi / 180)

/-- JS `Math.atan2` on real arguments (the source applies it to the
non-negative square roots of the haversine formula). -/
noncomputable def atan2 (y x : ℝ) : ℝ :=
  if 0 < x then Real.arctan (y / x)
  else if x < 0 then
    (if 0 ≤ y then Real.arctan (y / x) + Real.pi else Real.arctan (y / x) - Real.pi)
  else
    (if 0 < y then Real.pi / 2 else if y < 0 then -(Real.pi / 2) else 0)

/-- `calculateDistance` (search/page.tsx lines 29-38): haversine distance in
miles with Earth radius 3959. -/
noncomputable def calculateDistance (lat1 lon1 lat2 lon2 : ℝ) : ℝ :=
  let R : ℝ := 3959
  let dLat := toRad (lat2 - lat1)
  let dLon := toRad (lon2 - lon1)
  let a := Real.sin (dLat / 2) * Real.sin (dLat / 2) +
    Real.cos (toRad lat1) * Real.cos (toRad lat2) *
      Real.sin (dLon / 2) * Real.sin (dLon / 2)
  let c := 2 * atan2 (Real.sqrt a) (Real.sqrt (1 - a))
  R * c

/-- The `a` term of `calculateDistance`, named for the proofs. -/
noncomputable def havA (lat1 lon1 lat2 lon2 : ℝ) : ℝ :=
  Real.sin (toRad (lat2 - lat1) / 2) * Real.sin (toRad (lat2 - lat1) / 2) +
    Real.cos (toRad lat1) * Real.cos (toRad lat2) *
      Real.sin (toRad (lon2 - lon1) / 2) * Real.sin (toRad (lon2 - lon1) / 2)

/-- The `a` term as the specification writes it:
`a = sin²(Δlat/2) + cos(lat1)·cos(lat2)·sin²(Δlon/2)`, angles converted from
degrees to radians before use. -/
noncomputable def havASpec (lat1 lon1 lat2 lon2 : ℝ) : ℝ :=
  Real.sin ((toRad lat2 - toRad lat1) / 2) ^ 2 +
    Real.cos (toRad lat1) * Real.cos (toRad lat2) *
      Real.sin ((toRad lon2 - toRad lon1) / 2) ^ 2

/-- The distance as the specification writes it:
`d = 2·R·atan2(√a, √(1-a))` with mean Earth radius `R = 3959` statute
miles. -/
noncomputable def haversineSpec (lat1 lon1 lat2 lon2 : ℝ) : ℝ :=
  2 * 3959 * atan2 (Real.sqrt (havASpec lat1 lon1 lat2 lon2))
    (Real.sqrt (1 - havASpec lat1 lon1 lat2 lon2))

/-- The hard-coded fallback origin of `requestLocation`
(search/page.tsx lines 157, 164): downtown Indianapolis. -/
def defaultLocation : ℚ × ℚ :=
  (39.7684, -86.1581)

/-- The origin `requestLocation` hands to `fetchVendors`: the sensor
coordinate when the position request succeeds, the default otherwise
(geolocation unsupported, or the request fails or is denied). -/
def requestLocation (sensor : Option (ℚ × ℚ)) : ℚ × ℚ :=
  match sensor with
  | some p => p
  | none => defaultLocation

/-- A row of the `vendors` table as `fetchVendors` selects it:
`id, business_name, description, cuisine_types, logo_url`. The
`cuisine_types` column can be null; the source reads `cuisine_types || []`. -/
structure VendorRow where
  id : String
  business_name : String
  description : String
  cuisine_types : Option (List String)
  logo_url : Option String

/-- A row of `vendor_status` as `fetchVendors` selects it. -/
structure StatusRow where
  vendor_id : String
  operational_status : St
  current_location_id : Option Nat

/-- The result of the per-vendor `locations` fetch:
`latitude, longitude, address, notes`. A missing or malformed row reads as
`none` (the source destructures only `data`, ignoring the error). -/
structure LocationFetch where
  latitude : ℝ
  longitude : ℝ
  address : Option String
  notes : Option String

/-- The `x || undefined` idiom applied to optional strings: an absent or
empty string becomes `undefined`. -/
def orUndefined : Option String → Option String
  | none => none
  | some s => if s = "" then none else some s

/-- The body of the `fetchVendors` loop for one vendor that has a status
row: fetch the current location when a reference exists, compute the
distance when the fetch yields a row, else leave both absent. -/
noncomputable def annotateVendor (userLat userLng : ℝ)
    (fetchLocation : Nat → Option LocationFetch)
    (v : VendorRow) (status : StatusRow) : VendorWithLocation ℝ :=
  match status.current_location_id with
  | none =>
    { id := v.id, business_name := v.business_name, description := v.description,
      cuisine_types := v.cuisine_types.getD [], logo_url := orUndefined v.logo_url,
      operational_status := status.operational_status,
      location := none, distance_miles := none }
  | some lid =>
    match fetchLocation lid with
    | none =>
      { id := v.id, business_name := v.business_name, description := v.description,
        cuisine_types := v.cuisine_types.getD [], logo_url := orUndefined v.logo_url,
        operational_status := status.operational_status,
        location := none, distance_miles := none }
    | some locationData =>
      { id := v.id, business_name := v.business_name, description := v.description,
        cuisine_types := v.cuisine_types.getD [], logo_url := orUndefined v.logo_url,
        operational_status := status.operational_status,
        location := some ⟨locationData.latitude, locationData.longitude,
          orUndefined locationData.address, orUndefined locationData.notes⟩,
        distance_miles := some (calculateDistance userLat userLng
          locationData.latitude locationData.longitude) }

/-- The `fetchVendors` loop over `vendorsData`: vendors without a status row
are skipped (`continue`), every other vendor is annotated and kept. -/
noncomputable def buildVendorsWithLocation (userLat userLng : ℝ)
    (fetchLocation : Nat → Option LocationFetch)
    (vendorsData : List VendorRow) (statusMap : String → Option StatusRow) :
    List (VendorWithLocation ℝ) :=
  match vendorsData with
  | [] => []
  | v :: rest =>
    match statusMap v.id with
    | none => buildVendorsWithLocation userLat userLng fetchLocation rest statusMap
    | some status =>
      annotateVendor userLat userLng fetchLocation v status ::
        buildVendorsWithLocation userLat userLng fetchLocation rest statusMap

/-- The `vendor_status` row as the GoLiveButton updates it
(types/vendor.ts): the operational state, the last go-live time and the
current-location reference. -/
structure VendorStatusRow where
  operational_status : St
  went_live_at : Option Nat
  current_location_id : Option Nat
deriving DecidableEq

/-- A `locations` row as `createLocationAndGoLive` inserts it. -/
structure LocationRow where
  id : Nat
  latitude : ℚ
  longitude : ℚ
  address : Option String
  city : Option String
  state : Option String
  zip : Option String
  notes : Option String
  is_current_location : Bool
deriving DecidableEq

/-- The persisted rows the controller touches. -/
structure StoreState where
  locations : List LocationRow
  vendor_status : VendorStatusRow
deriving DecidableEq

/-- A `SelectedLocation` from the address search (GoLiveButton). -/
structure SelectedLocation where
  address : String
  latitude : ℚ
  longitude : ℚ
  city : Option String
  state : Option String
  zip : Option String
deriving DecidableEq

/-- The GoLiveButton component state plus the store it writes:
`status` is the displayed status React state. -/
structure Model where
  store : StoreState
  status : St
  showLocationInput : Bool
  useManualLocation : Bool
  selectedLocation : Option SelectedLocation
  locationNotes : String
deriving DecidableEq

/-- The controller's error outcomes: no coordinate obtainable
(the alert-and-prompt-manual-entry paths), or a failed store write
(the catch of a thrown supabase error). -/
inductive CtrlError
  | locationUnavailable
  | persistenceError
deriving DecidableEq

/-- One store write, recorded in order of issue with its outcome. -/
inductive DbOp
  | insertLocation (row : LocationRow) (ok : Bool)
  | updateVendorStatus (row : VendorStatusRow) (ok : Bool)
deriving DecidableEq

/-- The `updates` object of `updateStatus` applied to the stored row:
always the new operational status, and for `offline` also nulled
`current_location_id` and `went_live_at`. -/
def statusUpdateRow (row : VendorStatusRow) (newStatus : St) : VendorStatusRow :=
  if newStatus = St.offline then
    { operational_status := newStatus, current_location_id := none, went_live_at := none }
  else
    { row with operational_status := newStatus }

/-- `updateStatus` (GoLiveButton lines 154-190): update the row, and only on
success mirror the new status into the displayed state; a failed write
leaves everything as it was and reports a persistence error. -/
def updateStatus (ok : Bool) (m : Model) (newStatus : St) :
    Model × Option CtrlError × List DbOp :=
  let row := statusUpdateRow m.store.vendor_status newStatus
  if ok then
    ({ m with store := { m.store with vendor_status := row }, status := newStatus },
      none, [DbOp.updateVendorStatus row true])
  else
    (m, some CtrlError.persistenceError, [DbOp.updateVendorStatus row false])

/-- The `locations` row `createLocationAndGoLive` inserts; the generated id
is modelled as the number of existing rows. -/
def newLocationRow (m : Model) (latitude longitude : ℚ)
    (address city state zip : Option String) : LocationRow :=
  { id := m.store.locations.length,
    latitude := latitude, longitude := longitude,
    address := orUndefined address, city := orUndefined city,
    state := orUndefined state, zip := orUndefined zip,
    notes := if m.locationNotes = "" then none else some m.locationNotes,
    is_current_location := true }

/-- `createLocationAndGoLive` (GoLiveButton lines 102-152): insert the
location row; if that throws, stop. Then update `vendor_status` to live
with the fresh timestamp and location reference; if that throws, stop.
Only after both writes succeed set the displayed status to live and reset
the location-input form. -/
def createLocationAndGoLive (insertOk updateOk : Bool) (now : Nat)
    (latitude longitude : ℚ) (address city state zip : Option String)
    (m : Model) : Model × Option CtrlError × List DbOp :=
  let row := newLocationRow m latitude longitude address city state zip
  if insertOk = false then
    (m, some CtrlError.persistenceError, [DbOp.insertLocation row false])
  else
    let m1 : Model := { m with store := { m.store with locations := m.store.locations ++ [row] } }
    let newRow : VendorStatusRow :=
      { operational_status := St.live, went_live_at := some now,
        current_location_id := some row.id }
    if updateOk = false then
      (m1, some CtrlError.persistenceError,
        [DbOp.insertLocation row true, DbOp.updateVendorStatus newRow false])
    else
      ({ m1 with store := { m1.store with vendor_status := newRow },
                 status := St.live, showLocationInput := false,
                 useManualLocation := false,
                 selectedLocation := none, locationNotes := "" },
        none,
        [DbOp.insertLocation row true, DbOp.updateVendorStatus newRow true])

/-- `goLiveWithGPS` (GoLiveButton lines 56-83): no sensor coordinate
(geolocation unsupported, or the position request fails or is denied)
switches to manual entry and reports no coordinate; a sensor coordinate
goes live at it with no address parts. -/
def goLiveWithGPS (pos : Option (ℚ × ℚ)) (insertOk updateOk : Bool) (now : Nat)
    (m : Model) : Model × Option CtrlError × List DbOp :=
  match pos with
  | none =>
    ({ m with useManualLocation := true }, some CtrlError.locationUnavailable, [])
  | some p =>
    createLocationAndGoLive insertOk updateOk now p.1 p.2 none none none none m

/-- `goLiveWithSearchedLocation` (GoLiveButton lines 85-100): without a
selected location it only alerts; otherwise it goes live at the selection. -/
def goLiveWithSearchedLocation (insertOk updateOk : Bool) (now : Nat)
    (m : Model) : Model × Option CtrlError × List DbOp :=
  match m.selectedLocation with
  | none => (m, some CtrlError.locationUnavailable, [])
  | some sl =>
    createLocationAndGoLive insertOk updateOk now sl.latitude sl.longitude
      (some sl.address) sl.city sl.state sl.zip m

/-- `handleStatusChange` (GoLiveButton lines 46-54): from offline open the
location input; from live update to closing_soon; from closing_soon update
to offline. -/
def handleStatusChange (ok : Bool) (m : Model) :
    Model × Option CtrlError × List DbOp :=
  match m.status with
  | St.offline => ({ m with showLocationInput := true }, none, [])
  | St.live => updateStatus ok m St.closing_soon
  | St.closing_soon => updateStatus ok m St.offline

/-- The user-interface events of the GoLiveButton component. The booleans
are the success oracles of the store writes the event performs; `now` is
the wall-clock reading of `new Date()`. -/
inductive Ev
  | pressStatusButton (ok : Bool)
  | useGPS (pos : Option (ℚ × ℚ)) (insertOk updateOk : Bool) (now : Nat)
  | useSearchedLocation (insertOk updateOk : Bool) (now : Nat)
  | chooseManualEntry
  | selectLocation (sl : SelectedLocation)
  | setNotes (s : String)
  | cancelLocationInput
  | backToGPS

/-- One interaction step of the component. Each event is guarded by the
rendering conditions of the button that triggers it: the main status button
renders only outside the location-input form, the GPS button only on the
GPS pane, the searched-location and select controls only on the manual
pane. -/
def step (m : Model) (e : Ev) : Model × Option CtrlError × List DbOp :=
  match e with
  | Ev.pressStatusButton ok =>
    if m.showLocationInput then (m, none, []) else handleStatusChange ok m
  | Ev.useGPS pos insertOk updateOk now =>
    if m.showLocationInput ∧ ¬m.useManualLocation then
      goLiveWithGPS pos insertOk updateOk now m
    else (m, none, [])
  | Ev.useSearchedLocation insertOk updateOk now =>
    if m.showLocationInput ∧ m.useManualLocation then
      goLiveWithSearchedLocation insertOk updateOk now m
    else (m, none, [])
  | Ev.chooseManualEntry =>
    if m.showLocationInput then ({ m with useManualLocation := true }, none, [])
    else (m, none, [])
  | Ev.selectLocation sl =>
    if m.showLocationInput ∧ m.useManualLocation then
      ({ m with selectedLocation := some sl }, none, [])
    else (m, none, [])
  | Ev.setNotes s =>
    if m.showLocationInput then ({ m with locationNotes := s }, none, [])
    else (m, none, [])
  | Ev.cancelLocationInput =>
    if m.showLocationInput ∧ ¬m.useManualLocation then
      ({ m with showLocationInput := false, locationNotes := "" }, none, [])
    else (m, none, [])
  | Ev.backToGPS =>
    if m.showLocationInput ∧ m.useManualLocation then
      ({ m with useManualLocation := false, selectedLocation := none }, none, [])
    else (m, none, [])

/-- The onboarding state: `vendor_status` created offline with null
location and null go-live time, the component showing it. -/
def initModel : Model :=
  { store := { locations := [],
               vendor_status := { operational_status := St.offline,
                                  went_live_at := none,
                                  current_location_id := none } },
    status := St.offline, showLocationInput := false, useManualLocation := false,
    selectedLocation := none, locationNotes := "" }

/-- States the controller can reach from onboarding. -/
inductive Reachable : Model → Prop
  | init : Reachable initModel
  | next (m : Model) (e : Ev) : Reachable m → Reachable (step m e).1

/-- Session consistency: the displayed status mirrors the stored one, and
the location-input form is only open while offline. -/
def Inv (m : Model) : Prop :=
  m.status = m.store.vendor_status.operational_status ∧
  (m.showLocationInput = true → m.store.vendor_status.operational_status = St.offline)

/-- The legal transition edges of the three-state cycle. -/
def legalEdge (s t : St) : Prop :=
  (s = St.offline ∧ t = St.live) ∨
  (s = St.live ∧ t = St.closing_soon) ∨
  (s = St.closing_soon ∧ t = St.offline)

/-- The nullability invariant of `VendorStatusRow` (spec section 3). -/
def FieldsInv (row : VendorStatusRow) : Prop :=
  (row.current_location_id ≠ none ↔ row.operational_status ≠ St.offline) ∧
  (row.went_live_at ≠ none ↔ row.operational_status ≠ St.offline)

/-- The model after pressing the status button while offline: the
location-input form is open. -/
def readyModel : Model :=
  (step initModel (Ev.pressStatusButton true)).1

/-- The model after a successful GPS go-live from `readyModel`. -/
def liveModel : Model :=
  (step readyModel (Ev.useGPS (some (1, 2)) true true 5)).1

/-- The model after pressing the status button while live. -/
def closingModel : Model :=
  (step liveModel (Ev.pressStatusButton true)).1

theorem distCmp_le_zero_iff {α : Type} [LinearOrder α] (x y : Option α) :
    distCmp x y ≤ 0 ↔ distLe x y := by
  rcases x with _ | x <;> rcases y with _ | y <;> simp [distCmp, distLe]
  rcases lt_trichotomy x y with h | h | h
  · simp [h, h.le]
  · simp [h, lt_irrefl, le_of_eq h]
  · simp [h, h.not_lt, not_le.mpr h]

theorem distLe_total {α : Type} [LinearOrder α] (x y : Option α) :
    distLe x y ∨ distLe y x := by
  rcases x with _ | x <;> rcases y with _ | y <;> simp [distLe, le_total]

theorem distLe_trans {α : Type} [LinearOrder α] {x y z : Option α}
    (hxy : distLe x y) (hyz : distLe y z) : distLe x z := by
  rcases x with _ | x <;> rcases y with _ | y <;> rcases z with _ | z <;>
    simp [distLe] at hxy hyz ⊢ <;> exact le_trans hxy hyz

theorem distLe_refl {α : Type} [LinearOrder α] (x : Option α) : distLe x x := by
  rcases x with _ | x <;> simp [distLe]

theorem rankLe_iff {α : Type} [LinearOrder α] (a b : VendorWithLocation α) :
    rankLe a b = true ↔ specLe a b := by
  unfold rankLe sortCompare specLe
  rcases ha : vendorIsLive a <;> rcases hb : vendorIsLive b <;>
    simp [ha, hb, distCmp_le_zero_iff]

theorem rankLe_total {α : Type} [LinearOrder α] (a b : VendorWithLocation α) :
    (rankLe a b || rankLe b a) = true := by
  rw [Bool.or_eq_true, rankLe_iff, rankLe_iff]
  unfold specLe
  rcases ha : vendorIsLive a <;> rcases hb : vendorIsLive b <;>
    simp [ha, hb] <;> exact distLe_total _ _

theorem rankLe_trans {α : Type} [LinearOrder α] (a b c : VendorWithLocation α)
    (hab : rankLe a b = true) (hbc : rankLe b c = true) : rankLe a c = true := by
  rw [rankLe_iff] at hab hbc ⊢
  unfold specLe at hab hbc ⊢
  rcases ha : vendorIsLive a <;> rcases hb : vendorIsLive b <;>
    rcases hc : vendorIsLive c <;> simp [ha, hb, hc] at hab hbc ⊢ <;>
    exact distLe_trans hab hbc

/-- C3: the ranker's sort is a total order, stable for ties, with two keys:
every non-offline vendor is placed before every offline vendor; within the
same liveness bucket vendors are ordered by ascending distance with missing
distances last; and two same-bucket vendors with equal distance (including
both absent) keep their original relative order. -/
theorem rank_two_key_stable_sort {α : Type} [LinearOrder α] :
    (∀ a b : VendorWithLocation α, rankLe a b = true ∨ rankLe b a = true) ∧
    (∀ a b c : VendorWithLocation α,
      rankLe a b = true → rankLe b c = true → rankLe a c = true) ∧
    (∀ l : List (VendorWithLocation α),
      (rank l).Pairwise (fun a b =>
        (vendorIsLive b = true → vendorIsLive a = true) ∧
        (vendorIsLive a = vendorIsLive b →
          distLe a.distance_miles b.distance_miles))) ∧
    (∀ (l : List (VendorWithLocation α)) (a b : VendorWithLocation α),
      List.Sublist [a, b] l → vendorIsLive a = vendorIsLive b →
      a.distance_miles = b.distance_miles → List.Sublist [a, b] (rank l)) := by
  refine ⟨fun a b => ?_, rankLe_trans, fun l => ?_, fun l a b hsub hlive hdist => ?_⟩
  · exact (Bool.or_eq_true _ _).mp (rankLe_total a b)
  · have hs := List.sorted_mergeSort rankLe_trans rankLe_total l
    refine List.Pairwise.imp ?_ hs
    intro a b hab
    rw [rankLe_iff] at hab
    rcases hab with ⟨h1, h2⟩ | ⟨heq, hd⟩
    · constructor
      · intro hb; rw [hb] at h2; cases h2
      · intro he; rw [h1, h2] at he; cases he
    · exact ⟨fun hb => heq.trans hb, fun _ => hd⟩
  · apply List.sublist_mergeSort rankLe_trans rankLe_total ?_ hsub
    refine List.pairwise_cons.mpr ⟨?_, List.pairwise_singleton _ _⟩
    intro y hy
    rw [List.mem_singleton] at hy
    subst hy
    rw [rankLe_iff]
    refine Or.inr ⟨hlive, ?_⟩
    rw [hdist]
    exact distLe_refl _

theorem keepVendor_eq_true_iff {α : Type} (showLiveOnly : Bool)
    (sel : List String) (v : VendorWithLocation α) :
    keepVendor showLiveOnly sel v = true ↔
      ¬(showLiveOnly = true ∧ v.operational_status = St.offline) ∧
        (sel = [] ∨ ∃ t ∈ v.cuisine_types, t ∈ sel) := by
  unfold keepVendor
  split_ifs with h1 h2
  · simp [h1]
  · obtain ⟨hlen, hany⟩ := h2
    simp at hany
    simp [h1, List.length_pos.mp hlen]
    exact hany
  · constructor
    · intro _
      refine ⟨h1, ?_⟩
      by_cases hsel : sel = []
      · exact Or.inl hsel
      · have hlen : 0 < sel.length := List.length_pos.mpr hsel
        have hny : (v.cuisine_types.any fun t => sel.contains t) = true := by
          by_contra hc
          exact h2 ⟨hlen, hc⟩
        simp at hny
        exact Or.inr hny
    · intro _
      rfl

/-- C5: filtering is non-destructive and applied per vendor: the filtered
output is a subsequence of its input (kept vendors unchanged, in order);
the live-only filter drops exactly the offline vendors; the cuisine filter
keeps a vendor iff its tag set meets the selected tags, an empty selection
keeping everything. -/
theorem filteredVendors_non_destructive {α : Type} :
    (∀ (showLiveOnly : Bool) (sel : List String)
        (l : List (VendorWithLocation α)),
      (filteredVendors showLiveOnly sel l).Sublist l) ∧
    (∀ (sel : List String) (l : List (VendorWithLocation α)),
      filteredVendors true sel l = (filteredVendors false sel l).filter vendorIsLive) ∧
    (∀ (sel : List String) (v : VendorWithLocation α)
        (l : List (VendorWithLocation α)),
      v ∈ filteredVendors false sel l ↔
        v ∈ l ∧ (sel = [] ∨ ∃ t ∈ v.cuisine_types, t ∈ sel)) ∧
    (∀ l : List (VendorWithLocation α), filteredVendors false [] l = l) := by
  refine ⟨fun sLO sel l => List.filter_sublist l, fun sel l => ?_, fun sel v l => ?_,
    fun l => ?_⟩
  · unfold filteredVendors
    rw [List.filter_filter]
    apply List.filter_congr
    intro v _
    unfold keepVendor vendorIsLive
    by_cases ho : v.operational_status = St.offline <;>
      by_cases hc : 0 < sel.length ∧
        ¬(v.cuisine_types.any fun t => sel.contains t) = true <;>
      simp [ho, hc]
  · unfold filteredVendors
    rw [List.mem_filter, keepVendor_eq_true_iff]
    simp
  · unfold filteredVendors
    rw [List.filter_congr (fun v _ => ?_), List.filter_true]
    unfold keepVendor
    simp

/-- C8: the ranking step drops no vendor (its output is as long as its
input), and the filtered length is the input length minus exactly the
entries the active filters remove. -/
theorem rank_and_filter_lengths {α : Type} [LinearOrder α] :
    (∀ l : List (VendorWithLocation α), (rank l).length = l.length) ∧
    (∀ (showLiveOnly : Bool) (sel : List String)
        (l : List (VendorWithLocation α)),
      (filteredVendors showLiveOnly sel (rank l)).length =
        l.length - (l.filter fun v => !keepVendor showLiveOnly sel v).length) := by
  constructor
  · intro l
    exact (List.mergeSort_perm l rankLe).length_eq
  · intro sLO sel l
    have hperm : (rank l).Perm l := List.mergeSort_perm l rankLe
    unfold filteredVendors
    rw [← List.countP_eq_length_filter, ← List.countP_eq_length_filter,
      hperm.countP_eq]
    have h := List.length_eq_countP_add_countP (keepVendor sLO sel) (l := l)
    have h2 : List.countP (fun v => !keepVendor sLO sel v) l =
        List.countP (fun a => decide ¬(keepVendor sLO sel a = true)) l := by
      apply List.countP_congr
      intro a _
      cases keepVendor sLO sel a <;> simp
    omega

/-- C9: ranking is total and never raises: the empty candidate list yields
an empty result, and a vendor whose location reference is absent or whose
location row cannot be fetched (missing or malformed) is annotated with an
absent distance and still included, for every input list. -/
theorem ranker_total_and_degrades :
    rank ([] : List (VendorWithLocation ℚ)) = [] ∧
    (∀ (userLat userLng : ℝ) (fetch : Nat → Option LocationFetch)
        (sm : String → Option StatusRow),
      buildVendorsWithLocation userLat userLng fetch [] sm = []) ∧
    (∀ (userLat userLng : ℝ) (fetch : Nat → Option LocationFetch)
        (v : VendorRow) (status : StatusRow),
      status.current_location_id.bind fetch = none →
      (annotateVendor userLat userLng fetch v status).distance_miles = none ∧
      (annotateVendor userLat userLng fetch v status).location = none) ∧
    (∀ (userLat userLng : ℝ) (fetch : Nat → Option LocationFetch)
        (vendorsData : List VendorRow) (sm : String → Option StatusRow)
        (v : VendorRow) (status : StatusRow),
      v ∈ vendorsData → sm v.id = some status →
      annotateVendor userLat userLng fetch v status ∈
        buildVendorsWithLocation userLat userLng fetch vendorsData sm) := by
  refine ⟨List.mergeSort_nil, fun _ _ _ _ => rfl, fun uLat uLng fetch v status hb => ?_,
    fun uLat uLng fetch vendorsData sm v status hv hsm => ?_⟩
  · rcases h : status.current_location_id with _ | lid
    · unfold annotateVendor
      rw [h]
      exact ⟨rfl, rfl⟩
    · rw [h] at hb
      simp only [Option.some_bind] at hb
      unfold annotateVendor
      rw [h]
      simp [hb]
  · induction vendorsData with
    | nil => cases hv
    | cons w rest ih =>
      rcases List.mem_cons.mp hv with rfl | hmem
      · simp only [buildVendorsWithLocation, hsm]
        exact List.mem_cons_self _ _
      · rcases hw : sm w.id with _ | st2 <;> simp only [buildVendorsWithLocation, hw]
        · exact ih hmem
        · exact List.mem_cons_of_mem _ (ih hmem)

/-- C10: whenever the position sensor is unsupported or the position
request fails or is denied, the origin used for distance computation and
ranking is exactly the default coordinate (39.7684, -86.1581). -/
theorem requestLocation_default_origin :
    requestLocation none = defaultLocation ∧
    defaultLocation = (39.7684, -86.1581) ∧
    (∀ p : ℚ × ℚ, requestLocation (some p) = p) :=
  ⟨rfl, rfl, fun _ => rfl⟩

theorem calculateDistance_eq (lat1 lon1 lat2 lon2 : ℝ) :
    calculateDistance lat1 lon1 lat2 lon2 =
      3959 * (2 * atan2 (Real.sqrt (havA lat1 lon1 lat2 lon2))
        (Real.sqrt (1 - havA lat1 lon1 lat2 lon2))) := rfl

theorem havA_spec_eq (lat1 lon1 lat2 lon2 : ℝ) :
    havA lat1 lon1 lat2 lon2 = havASpec lat1 lon1 lat2 lon2 := by
  unfold havA havASpec
  have h1 : toRad (lat2 - lat1) / 2 = (toRad lat2 - toRad lat1) / 2 := by
    unfold toRad; ring
  have h2 : toRad (lon2 - lon1) / 2 = (toRad lon2 - toRad lon1) / 2 := by
    unfold toRad; ring
  rw [h1, h2]; ring

theorem havA_symm (lat1 lon1 lat2 lon2 : ℝ) :
    havA lat1 lon1 lat2 lon2 = havA lat2 lon2 lat1 lon1 := by
  unfold havA
  have h1 : toRad (lat1 - lat2) / 2 = -(toRad (lat2 - lat1) / 2) := by
    unfold toRad; ring
  have h2 : toRad (lon1 - lon2) / 2 = -(toRad (lon2 - lon1) / 2) := by
    unfold toRad; ring
  rw [h1, h2, Real.sin_neg, Real.sin_neg]; ring

theorem havA_self (lat lon : ℝ) : havA lat lon lat lon = 0 := by
  unfold havA toRad
  simp

theorem atan2_zero_one : atan2 0 1 = 0 := by
  unfold atan2
  rw [if_pos one_pos]
  norm_num [Real.arctan_zero]

/-- C4: the distance function is the haversine great-circle distance of the
specification with mean Earth radius 3959 statute miles and degrees
converted to radians before use; it is symmetric, and zero on equal
coordinates. -/
theorem calculateDistance_is_haversine :
    (∀ lat1 lon1 lat2 lon2 : ℝ,
      calculateDistance lat1 lon1 lat2 lon2 = haversineSpec lat1 lon1 lat2 lon2) ∧
    (∀ lat1 lon1 lat2 lon2 : ℝ,
      calculateDistance lat1 lon1 lat2 lon2 = calculateDistance lat2 lon2 lat1 lon1) ∧
    (∀ lat lon : ℝ, calculateDistance lat lon lat lon = 0) := by
  refine ⟨fun lat1 lon1 lat2 lon2 => ?_, fun lat1 lon1 lat2 lon2 => ?_,
    fun lat lon => ?_⟩
  · rw [calculateDistance_eq, havA_spec_eq]
    unfold haversineSpec
    ring
  · rw [calculateDistance_eq, calculateDistance_eq, havA_symm]
  · rw [calculateDistance_eq, havA_self]
    rw [Real.sqrt_zero]
    norm_num [Real.sqrt_one, atan2_zero_one]

theorem step_preserves_inv (m : Model) (e : Ev)
    (h : Inv m ∧ FieldsInv m.store.vendor_status) :
    Inv (step m e).1 ∧ FieldsInv (step m e).1.store.vendor_status := by
  obtain ⟨⟨locs, os, wla, cli⟩, disp, sli, uml, sel, notes⟩ := m
  obtain ⟨⟨hdisp, hinput⟩, hloc, hwent⟩ := h
  replace hdisp : disp = os := hdisp
  replace hinput : sli = true → os = St.offline := hinput
  replace hloc : cli ≠ none ↔ os ≠ St.offline := hloc
  replace hwent : wla ≠ none ↔ os ≠ St.offline := hwent
  subst hdisp
  cases e with
  | pressStatusButton ok =>
    rcases sli with _ | _
    · rcases disp with _ | _ | _ <;> rcases ok with _ | _ <;>
        simp_all [step, handleStatusChange, updateStatus, statusUpdateRow, Inv, FieldsInv]
    · obtain rfl : disp = St.offline := hinput rfl
      rcases ok with _ | _ <;>
        simp_all [step, Inv, FieldsInv]
  | useGPS pos insertOk updateOk now =>
    rcases sli with _ | _
    · simp_all [step, Inv, FieldsInv]
    · rcases uml with _ | _
      · obtain rfl : disp = St.offline := hinput rfl
        rcases pos with _ | p <;> rcases insertOk with _ | _ <;>
          rcases updateOk with _ | _ <;>
          simp_all [step, goLiveWithGPS, createLocationAndGoLive, Inv, FieldsInv]
      · simp_all [step, Inv, FieldsInv]
  | useSearchedLocation insertOk updateOk now =>
    rcases sli with _ | _
    · simp_all [step, Inv, FieldsInv]
    · rcases uml with _ | _
      · simp_all [step, Inv, FieldsInv]
      · obtain rfl : disp = St.offline := hinput rfl
        rcases sel with _ | s <;> rcases insertOk with _ | _ <;>
          rcases updateOk with _ | _ <;>
          simp_all [step, goLiveWithSearchedLocation, createLocationAndGoLive, Inv, FieldsInv]
  | chooseManualEntry =>
    rcases sli with _ | _ <;> simp_all [step, Inv, FieldsInv]
  | selectLocation sl =>
    rcases sli with _ | _ <;> rcases uml with _ | _ <;>
      simp_all [step, Inv, FieldsInv]
  | setNotes s =>
    rcases sli with _ | _ <;> simp_all [step, Inv, FieldsInv]
  | cancelLocationInput =>
    rcases sli with _ | _ <;> rcases uml with _ | _ <;>
      simp_all [step, Inv, FieldsInv]
  | backToGPS =>
    rcases sli with _ | _ <;> rcases uml with _ | _ <;>
      simp_all [step, Inv, FieldsInv]

theorem reachable_inv (m : Model) (hm : Reachable m) :
    Inv m ∧ FieldsInv m.store.vendor_status := by
  induction hm with
  | init =>
    refine ⟨⟨rfl, fun _ => rfl⟩, ?_, ?_⟩ <;> simp [initModel]
  | next m e _ ih => exact step_preserves_inv m e ih

theorem step_status_change_legal (m : Model) (e : Ev) (hm : Inv m) :
    (step m e).1.store.vendor_status = m.store.vendor_status ∨
      legalEdge m.store.vendor_status.operational_status
        (step m e).1.store.vendor_status.operational_status := by
  obtain ⟨⟨locs, os, wla, cli⟩, disp, sli, uml, sel, notes⟩ := m
  obtain ⟨hdisp, hinput⟩ := hm
  replace hdisp : disp = os := hdisp
  replace hinput : sli = true → os = St.offline := hinput
  subst hdisp
  cases e with
  | pressStatusButton ok =>
    rcases sli with _ | _
    · rcases disp with _ | _ | _ <;> rcases ok with _ | _ <;>
        simp_all [step, handleStatusChange, updateStatus, statusUpdateRow, legalEdge]
    · simp_all [step]
  | useGPS pos insertOk updateOk now =>
    rcases sli with _ | _
    · simp_all [step]
    · rcases uml with _ | _
      · obtain rfl : disp = St.offline := hinput rfl
        rcases pos with _ | p <;> rcases insertOk with _ | _ <;>
          rcases updateOk with _ | _ <;>
          simp_all [step, goLiveWithGPS, createLocationAndGoLive, legalEdge]
      · simp_all [step]
  | useSearchedLocation insertOk updateOk now =>
    rcases sli with _ | _
    · simp_all [step]
    · rcases uml with _ | _
      · simp_all [step]
      · obtain rfl : disp = St.offline := hinput rfl
        rcases sel with _ | s <;> rcases insertOk with _ | _ <;>
          rcases updateOk with _ | _ <;>
          simp_all [step, goLiveWithSearchedLocation, createLocationAndGoLive, legalEdge]
  | chooseManualEntry =>
    rcases sli with _ | _ <;> simp_all [step]
  | selectLocation sl =>
    rcases sli with _ | _ <;> rcases uml with _ | _ <;> simp_all [step]
  | setNotes s =>
    rcases sli with _ | _ <;> simp_all [step]
  | cancelLocationInput =>
    rcases sli with _ | _ <;> rcases uml with _ | _ <;> simp_all [step]
  | backToGPS =>
    rcases sli with _ | _ <;> rcases uml with _ | _ <;> simp_all [step]

/-- C1: the status controller implements exactly the three-state cycle
offline -> live -> closing_soon -> offline: every interaction step either
leaves the stored VendorStatus row untouched or moves its state along one
of the three legal edges, and each legal edge is realized by a concrete
interaction. -/
theorem controller_three_state_cycle :
    (∀ (m : Model) (e : Ev), Inv m →
      (step m e).1.store.vendor_status = m.store.vendor_status ∨
        legalEdge m.store.vendor_status.operational_status
          (step m e).1.store.vendor_status.operational_status) ∧
    readyModel.store.vendor_status.operational_status = St.offline ∧
    liveModel.store.vendor_status.operational_status = St.live ∧
    closingModel.store.vendor_status.operational_status = St.closing_soon ∧
    (step closingModel (Ev.pressStatusButton true)).1.store.vendor_status.operational_status
      = St.offline :=
  ⟨step_status_change_legal, rfl, rfl, rfl, rfl⟩

/-- C2: in every controller state reachable from onboarding
(offline, null location, null go-live time), `current_location_id` is
non-null iff the stored state is live or closing_soon, and `went_live_at`
is non-null iff the stored state is live or closing_soon; hence both are
non-null after every successful go-live and null after every successful
go-offline. -/
theorem reachable_status_location_invariant (m : Model) (hm : Reachable m) :
    (m.store.vendor_status.current_location_id ≠ none ↔
      m.store.vendor_status.operational_status ≠ St.offline) ∧
    (m.store.vendor_status.went_live_at ≠ none ↔
      m.store.vendor_status.operational_status ≠ St.offline) :=
  (reachable_inv m hm).2

theorem reachable_status_location_invariant_witness :
    (liveModel.store.vendor_status.current_location_id ≠ none ↔
      liveModel.store.vendor_status.operational_status ≠ St.offline) ∧
    (liveModel.store.vendor_status.went_live_at ≠ none ↔
      liveModel.store.vendor_status.operational_status ≠ St.offline) :=
  reachable_status_location_invariant liveModel
    (Reachable.next readyModel (Ev.useGPS (some (1, 2)) true true 5)
      (Reachable.next initModel (Ev.pressStatusButton true) Reachable.init))

/-- C6: a go-live request with neither a sensor coordinate nor a manually
selected location yields the location-unavailable outcome (switching to the
manual-entry prompt on the GPS path), performs no store write (empty trace,
so no Location row), and leaves the stored VendorStatus untouched. -/
theorem goLive_without_location_unavailable :
    (∀ (insertOk updateOk : Bool) (now : Nat) (m : Model),
      goLiveWithGPS none insertOk updateOk now m =
        ({ m with useManualLocation := true },
          some CtrlError.locationUnavailable, [])) ∧
    (∀ (insertOk updateOk : Bool) (now : Nat) (m : Model),
      m.selectedLocation = none →
      goLiveWithSearchedLocation insertOk updateOk now m =
        (m, some CtrlError.locationUnavailable, [])) := by
  constructor
  · intro insertOk updateOk now m
    rfl
  · intro insertOk updateOk now m h
    unfold goLiveWithSearchedLocation
    rw [h]

/-- C7: within one go-live invocation the Location insert is issued
strictly before the VendorStatus update that references it; a failed insert
aborts with nothing attempted further and no state change; a failed status
update leaves the stored VendorStatus and the displayed status unchanged;
and the displayed status becomes live only when both writes succeed. -/
theorem createLocationAndGoLive_write_ordering
    (insertOk updateOk : Bool) (now : Nat) (latitude longitude : ℚ)
    (address city state zip : Option String) (m : Model) :
    (∀ (i : Nat) (r : VendorStatusRow) (ok : Bool),
      (createLocationAndGoLive insertOk updateOk now latitude longitude
          address city state zip m).2.2[i]? =
        some (DbOp.updateVendorStatus r ok) →
      ∃ (j : Nat) (lrow : LocationRow), j < i ∧
        (createLocationAndGoLive insertOk updateOk now latitude longitude
            address city state zip m).2.2[j]? =
          some (DbOp.insertLocation lrow true) ∧
        r.current_location_id = some lrow.id) ∧
    (insertOk = false →
      (createLocationAndGoLive insertOk updateOk now latitude longitude
          address city state zip m).1 = m ∧
      (createLocationAndGoLive insertOk updateOk now latitude longitude
          address city state zip m).2.1 = some CtrlError.persistenceError ∧
      ∀ (r : VendorStatusRow) (ok : Bool),
        DbOp.updateVendorStatus r ok ∉
          (createLocationAndGoLive insertOk updateOk now latitude longitude
            address city state zip m).2.2) ∧
    (updateOk = false →
      (createLocationAndGoLive insertOk updateOk now latitude longitude
          address city state zip m).1.store.vendor_status = m.store.vendor_status ∧
      (createLocationAndGoLive insertOk updateOk now latitude longitude
          address city state zip m).1.status = m.status) ∧
    ((createLocationAndGoLive insertOk updateOk now latitude longitude
        address city state zip m).1.status = St.live ↔
      (insertOk = true ∧ updateOk = true) ∨ m.status = St.live) := by
  refine ⟨fun i r ok hi => ?_, fun hins => ?_, fun hupd => ?_, ?_⟩
  · rcases insertOk with _ | _
    · rcases i with _ | i <;> simp [createLocationAndGoLive] at hi
    · rcases i with _ | i
      · simp [createLocationAndGoLive] at hi
        rcases updateOk with _ | _ <;> simp at hi
      · rcases i with _ | i
        · refine ⟨0, newLocationRow m latitude longitude address city state zip,
            Nat.zero_lt_one, ?_, ?_⟩
          · rcases updateOk with _ | _ <;> rfl
          · rcases updateOk with _ | _ <;> simp [createLocationAndGoLive] at hi <;>
              rw [← hi.1]
        · rcases updateOk with _ | _ <;> simp [createLocationAndGoLive] at hi
  · subst hins
    refine ⟨rfl, rfl, fun r ok => ?_⟩
    simp [createLocationAndGoLive]
  · subst hupd
    rcases insertOk with _ | _ <;> exact ⟨rfl, rfl⟩
  · rcases insertOk with _ | _ <;> rcases updateOk with _ | _ <;>
      simp [createLocationAndGoLive]

end TruckedUpFood
